/-
  Verification of the AJAX request layer of the Crowd-Funding client scripts.

  Shallow embedding of:
    * src/crowdfunding_django/static/js/modules/ajax.js  (class AjaxManager)
    * src/unnamed/part_000                               (helpers: request, showLoading, hideLoading)

  The environment (server responses, aborts, network faults) is modelled as an
  oracle assigning each attempt an outcome; the dispatcher is a total function
  over that oracle.  DOM side effects (loading indicators, navigation, form
  reset, notifications) are modelled as explicit effect traces.
-/
import Mathlib

namespace Crowdfunding

/-! ## Request dispatcher (`AjaxManager.makeRequest`, ajax.js 85–218) -/

/-- Outcome of one underlying `fetch`/`request` attempt, as seen by
`AjaxManager.makeRequest`'s `try` block.  `request` (helpers, part_000) throws
`Error("HTTP error! status: " ++ status)` on any non-ok response, so a non-2xx
status surfaces in `makeRequest` as a caught error with that message; a 2xx
response returns normally; an abort (timeout timer fired, or
`cancelPendingRequest` called `controller.abort()`) surfaces as an error with
`name === "AbortError"`; any other transport exception carries its own
message. -/
inductive AttemptOutcome where
  | httpOk (data : String)
  | httpErr (status : Nat)
  | abortErr
  | netErr (msg : String)
deriving DecidableEq, Repr

/-- `RequestOutcome` of the code: `makeRequest` returns
`{success: true, data, response}` or `{success: false, error}`.  The
`cancelled` flag marks the distinguished early return
`{success: false, error: "Request cancelled"}` taken on the `AbortError`
branch (ajax.js lines 192–195), which the spec's data model calls
`Failure{cancelled: true}`. -/
inductive Result where
  | success (data : String)
  | failure (error : String) (cancelled : Bool)
deriving DecidableEq, Repr

/-- The error message `makeRequest` catches for a non-ok HTTP status: thrown by
`request` in helpers (part_000) as `HTTP error! status: ${response.status}`.
(`makeRequest`'s own `throw new Error("HTTP ...")` on line 178 is unreachable:
`request` has already thrown on every non-ok response.) -/
def httpErrMsg (status : Nat) : String :=
  "HTTP error! status: " ++ toString status

/-- The retry predicate of ajax.js line 198:
`config.retries > 0 && !error.message.includes("4")`.  The budget test is the
`retries` pattern match at the call site; this is the message test.
JavaScript `msg.includes("4")` with a one-character needle is exactly
membership of the character `'4'` in the string. -/
def retryableMsg (msg : String) : Bool :=
  !(msg.data.contains '4')

/-- `AjaxManager.makeRequest`'s control flow over attempts (ajax.js 85–218),
with the environment oracle `env` giving the outcome of the `idx`-th attempt.
Returns the settled result together with the total number of attempts
performed (initial attempt plus retries).

* a 2xx response returns `{success: true, data}` (line 176);
* an `AbortError` returns `{success: false, error: "Request cancelled"}`
  with no retry (lines 192–195);
* any other error retries after a delay with `retries - 1` when
  `retries > 0 && !error.message.includes("4")` (lines 198–205), else
  settles as `{success: false, error: error.message}` (line 216). -/
def makeRequestRun (env : Nat → AttemptOutcome) (idx : Nat) (retries : Nat) :
    Result × Nat :=
  match env idx with
  | .httpOk d => (.success d, 1)
  | .abortErr => (.failure "Request cancelled" true, 1)
  | .httpErr s =>
    match retries with
    | 0 => (.failure (httpErrMsg s) false, 1)
    | r + 1 =>
      if retryableMsg (httpErrMsg s) then
        let p := makeRequestRun env (idx + 1) r
        (p.1, p.2 + 1)
      else (.failure (httpErrMsg s) false, 1)
  | .netErr m =>
    match retries with
    | 0 => (.failure m false, 1)
    | r + 1 =>
      if retryableMsg m then
        let p := makeRequestRun env (idx + 1) r
        (p.1, p.2 + 1)
      else (.failure m false, 1)

/-- The result the catch/return logic produces for the outcome of the attempt
on which the call settles (no further retry): `response.ok` → success,
`AbortError` → cancelled failure, anything else → failure carrying
`error.message`. -/
def settleResult : AttemptOutcome → Result
  | .httpOk d => .success d
  | .httpErr s => .failure (httpErrMsg s) false
  | .abortErr => .failure "Request cancelled" true
  | .netErr m => .failure m false

/-! ## Configuration merge (`AjaxManager.constructor` 13–25, `makeRequest` 86, 91) -/

/-- Caller-supplied options for `makeRequest`; a `none` field is a property
absent from the `options` object literal. -/
structure RequestOptions where
  timeout : Option Nat := none
  retries : Option Nat := none
  retryDelay : Option Nat := none
  showLoading : Option Bool := none
  showErrors : Option Bool := none
  cancelPending : Option Bool := none
deriving DecidableEq, Repr

/-- The effective per-call configuration fields after
`const config = { ...this.defaultConfig, ...options }` (ajax.js line 86). -/
structure RequestConfig where
  timeout : Nat
  retries : Nat
  retryDelay : Nat
  showLoading : Bool
  showErrors : Bool
deriving DecidableEq, Repr

/-- `this.defaultConfig` from the constructor (ajax.js 16–22). -/
def defaultConfig : RequestConfig :=
  { timeout := 30000
    retries := 3
    retryDelay := 1000
    showLoading := true
    showErrors := true }

/-- The object-spread merge `{ ...this.defaultConfig, ...options }`: a field
present in `options` wins, an absent field keeps the default. -/
def mergeConfig (o : RequestOptions) : RequestConfig :=
  { timeout := o.timeout.getD defaultConfig.timeout
    retries := o.retries.getD defaultConfig.retries
    retryDelay := o.retryDelay.getD defaultConfig.retryDelay
    showLoading := o.showLoading.getD defaultConfig.showLoading
    showErrors := o.showErrors.getD defaultConfig.showErrors }

/-- `config.cancelPending !== false` (ajax.js line 91): cancel-existing-to-
same-url is enabled unless the caller passed the literal `false`.  There is no
`cancelPending` key in `defaultConfig`, so the merged value is the option's
own (possibly absent) value. -/
def cancelPendingEnabled (o : RequestOptions) : Bool :=
  o.cancelPending != some false

/-! ## Pending request registry (ajax.js 15, 140–154, 182–189, 406–417) -/

/-- One entry of `this.pendingRequests`: the key (`requestId`) together with
the `url` recorded in the stored value.  The controller, timer and loading
element of the stored value do not affect registry membership and are
modelled separately. -/
structure PendingEntry where
  id : String
  url : String
deriving DecidableEq, Repr

/-- `this.pendingRequests`, in insertion order (a JS `Map` iterates in
insertion order; keys are the freshly generated request ids). -/
abbrev Registry := List PendingEntry

/-- `AjaxManager.cancelPendingRequest(url)` (ajax.js 406–417): aborts, clears
and deletes every entry whose recorded url equals the argument or whose key
equals the argument.  On the registry itself the effect is the removal of the
matching entries. -/
def cancelPendingRequest (url : String) (reg : Registry) : Registry :=
  reg.filter (fun e => !(e.url == url || e.id == url))

/-- The two registry mutations a dispatch performs:
* `start id url cp` — the synchronous prefix of `makeRequest` up to issuing
  the fetch: `if (config.cancelPending !== false) this.cancelPendingRequest(url)`
  (lines 91–93) followed by `this.pendingRequests.set(requestId, …)`
  (lines 140–145), `cp` being `cancelPending !== false`;
* `settle id` — the deletion of the entry when the attempt settles
  (line 154 on success, line 188 in the catch block; `Map.delete` on a
  missing key is a no-op, matching removal-by-filter). -/
inductive RegOp where
  | start (id url : String) (cancelPending : Bool)
  | settle (id : String)
deriving DecidableEq, Repr

/-- Apply one registry operation. -/
def applyRegOp (reg : Registry) : RegOp → Registry
  | .start id url cp =>
      (if cp then cancelPendingRequest url reg else reg) ++ [⟨id, url⟩]
  | .settle id => reg.filter (fun e => !(e.id == id))

/-- Run a sequence of registry operations. -/
def runRegOps (reg : Registry) (ops : List RegOp) : Registry :=
  ops.foldl applyRegOp reg

/-- Whether an operation respects the cancel-existing-to-same-url policy:
every `start` has `cancelPending !== false`. -/
def opCancelEnabled : RegOp → Bool
  | .start _ _ cp => cp
  | .settle _ => true

/-- Number of registry entries recorded for a given url. -/
def urlCount (reg : Registry) (url : String) : Nat :=
  reg.countP (fun e => e.url == url)

/-! ## Loading indicator accounting (`makeRequest` 119–130, 150–159, 180–189;
`cancelPendingRequest` 406–417; helpers `showLoading`/`hideLoading`) -/

/-- DOM/registry actions a single `makeRequest` invocation (one attempt)
performs on its own loading element and its own pending entry. -/
inductive DomAction where
  | showLoad
  | hideLoad
  | register
  | deregister
deriving DecidableEq, Repr

/-- How one attempt of `makeRequest` settles, from the point of view of its
own pending-registry entry and loading element. -/
inductive AttemptPath where
  /-- `request` resolved ok and the body parsed (lines 148–176). -/
  | fetchOk
  /-- `request` resolved ok but `response.json()`/`response.text()` threw;
  the success block had already deleted the entry and hidden the indicator
  (lines 150–159) before the parse (161–169), so the catch block finds no
  pending entry. -/
  | fetchOkParseThrew
  /-- `request` threw `HTTP error! status: …`; the entry is still registered
  when the catch block runs. -/
  | httpError
  /-- The fetch rejected with a transport error; entry still registered. -/
  | transportError
  /-- The timeout timer fired `controller.abort()` (line 137); the timer does
  not touch the registry, so the entry is still registered in the catch. -/
  | timeoutAbort
  /-- Another dispatch to the same url ran `cancelPendingRequest`, which hid
  the indicator and deleted the entry (lines 406–417); this call's catch then
  finds no pending entry (lines 182–189). -/
  | peerCancelled
deriving DecidableEq, Repr

/-- Lines 150–159 of the success path: clear timer, delete the entry, then
`hideLoading(loadingElement)` if an element was resolved. -/
def successActions (act : Bool) : List DomAction :=
  [.deregister] ++ (if act then [.hideLoad] else [])

/-- Lines 181–189 of the catch block: if the entry is still registered, clear
its timer, hide its loading element (when one was stored) and delete it;
otherwise do nothing. -/
def catchActions (act : Bool) (entryPresent : Bool) : List DomAction :=
  if entryPresent then (if act then [.hideLoad] else []) ++ [.deregister]
  else []

/-- Lines 406–417, as performed by the cancelling peer on this call's entry:
abort, clear timer, hide the stored loading element (when present), delete. -/
def cancellerActions (act : Bool) : List DomAction :=
  (if act then [.hideLoad] else []) ++ [.deregister]

/-- The trace of show/hide/register/deregister actions touching one attempt's
loading element and registry entry, per settlement path.  The indicator is
activated (lines 120–130) exactly when `config.showLoading` holds and a
loading element was resolved. -/
def attemptTrace (showLoadingCfg hasLoadingElement : Bool) :
    AttemptPath → List DomAction :=
  let act := showLoadingCfg && hasLoadingElement
  let pre := (if act then [DomAction.showLoad] else []) ++ [DomAction.register]
  fun p =>
    match p with
    | .fetchOk => pre ++ successActions act
    | .fetchOkParseThrew => pre ++ successActions act ++ catchActions act false
    | .httpError => pre ++ catchActions act true
    | .transportError => pre ++ catchActions act true
    | .timeoutAbort => pre ++ catchActions act true
    | .peerCancelled => pre ++ cancellerActions act ++ catchActions act false

/-! ## Form submission (`AjaxManager.submitForm`, ajax.js 225–279) -/

/-- The aspects of the form element `submitForm` reads: presence of the
`data-validate` attribute, the verdict of `form.checkValidity()` (used by
`validateForm`, lines 481–490), and the form's declared `action` (`none`
models a missing/empty action, which is falsy in `options.url ||
form.action || window.location.href`). -/
structure FormModel where
  hasDataValidate : Bool
  checkValidity : Bool
  action : Option String
deriving DecidableEq, Repr

/-- The options of `submitForm` the outcome routing depends on. -/
structure SubmitOptions where
  url : Option String := none
  resetForm : Option Bool := none
deriving DecidableEq, Repr

/-- The parsed payload of a successful submission response, restricted to the
fields `submitForm` inspects; `none` models an absent or falsy field
(`if (result.data.redirect) … else if (result.data.message) …`). -/
structure Payload where
  redirect : Option String := none
  message : Option String := none
deriving DecidableEq, Repr

/-- The settled result of the inner `makeRequest` call as `submitForm` sees
it: success with a parsed payload, or failure with an error string. -/
inductive SubmitNetResult where
  | success (payload : Payload)
  | failure (error : String)
deriving DecidableEq, Repr

/-- What `submitForm` returns: `makeRequest`'s result, or the early
`{ success: false, error: "Form validation failed" }` (line 244). -/
inductive SubmitResult where
  | success (payload : Payload)
  | failure (error : String)
deriving DecidableEq, Repr

/-- Externally visible effects of one `submitForm` call, in program order. -/
inductive BrowserEffect where
  /-- The inner `makeRequest(url, config)` call (line 248). -/
  | networkCall (url : String)
  /-- `window.location.href = result.data.redirect` (line 253). -/
  | navigate (href : String)
  /-- `this.showSuccess(result.data.message)` (line 255). -/
  | notifySuccess (msg : String)
  /-- `form.reset()` (line 260). -/
  | formReset
  /-- dispatch of the `ajaxSuccess` custom event (lines 264–268). -/
  | eventSuccess
  /-- dispatch of the `ajaxError` custom event (lines 271–275). -/
  | eventError
deriving DecidableEq, Repr

/-- Target url resolution `options.url || form.action || window.location.href`
(line 238). -/
def submitFormUrl (form : FormModel) (opts : SubmitOptions)
    (currentHref : String) : String :=
  (opts.url).getD (form.action.getD currentHref)

/-- `AjaxManager.submitForm` (ajax.js 225–279) as a function of the form, the
options, the current location and the network's answer, returning its result
and the list of its externally visible effects in order.

* With `data-validate` set and `checkValidity()` false, `validateForm`
  returns false and `submitForm` returns
  `{ success: false, error: "Form validation failed" }` before any network
  call (lines 241–246).
* Otherwise it calls `makeRequest`; on success it navigates when the payload
  has a truthy `redirect`, else notifies on a truthy `message`, then resets
  the form unless `options.resetForm === false`, then fires `ajaxSuccess`;
  on failure it fires `ajaxError` (lines 248–278). -/
def submitForm (form : FormModel) (opts : SubmitOptions) (currentHref : String)
    (net : SubmitNetResult) : SubmitResult × List BrowserEffect :=
  if form.hasDataValidate && !form.checkValidity then
    (.failure "Form validation failed", [])
  else
    let url := submitFormUrl form opts currentHref
    match net with
    | .success payload =>
      let outcomeEffs :=
        match payload.redirect with
        | some r => [BrowserEffect.navigate r]
        | none =>
          match payload.message with
          | some m => [BrowserEffect.notifySuccess m]
          | none => []
      let resetEffs :=
        if opts.resetForm != some false then [BrowserEffect.formReset] else []
      (.success payload,
        [BrowserEffect.networkCall url] ++ outcomeEffs ++ resetEffs ++
          [BrowserEffect.eventSuccess])
    | .failure e =>
      (.failure e, [BrowserEffect.networkCall url, BrowserEffect.eventError])

/-! ## Debounced search (`setupSearchHandlers` 63–77, `handleSearch` 286–310) -/

/-- JavaScript `!query.trim()`: the query is empty or all whitespace. -/
def isBlank (q : String) : Bool :=
  q.data.all Char.isWhitespace

/-- The search url `handleSearch` builds: base url with the query set as the
`q` parameter (lines 306–308). -/
def searchUrl (base q : String) : String :=
  base ++ "?q=" ++ q

/-- The debounce loop of `setupSearchHandlers` (lines 68–74): each input event
calls `clearTimeout(debounceTimer)` and schedules `handleSearch` with its own
value after 300 ms.  Given the input events as (time, value) pairs in
chronological order, an event's timer fires exactly when no later event
arrives strictly before the timer's deadline (`delay` after the event); the
fired timers' values are returned in order. -/
def debounceFired (delay : Nat) : List (Nat × String) → List String
  | [] => []
  | (t, v) :: rest =>
    match rest with
    | [] => [v]
    | (t2, _) :: _ =>
      (if t2 < t + delay then [] else [v]) ++ debounceFired delay rest

/-- Network calls issued by the search handlers for a sequence of input
events: each fired debounce timer runs `handleSearch`, which issues exactly
one GET to the query url when the trimmed query is non-empty and none
otherwise (lines 294–310). -/
def searchNetworkCalls (delay : Nat) (base : String)
    (events : List (Nat × String)) : List String :=
  ((debounceFired delay events).filter (fun q => !(isBlank q))).map
    (searchUrl base)

/-! ## Lemmas about the dispatcher -/

/-- Unfolding: a retryable non-abort failure with budget left recurses with
one fewer retry, adding one attempt. -/
lemma makeRequestRun_httpErr_retry (env : Nat → AttemptOutcome) (idx r s : Nat)
    (h : env idx = .httpErr s) (hm : retryableMsg (httpErrMsg s) = true) :
    makeRequestRun env idx (r + 1) =
      ((makeRequestRun env (idx + 1) r).1, (makeRequestRun env (idx + 1) r).2 + 1) := by
  rw [makeRequestRun, h]
  simp [hm]

/-- Unfolding: a non-retryable (message contains '4') HTTP failure settles at
once, whatever the remaining budget. -/
lemma makeRequestRun_httpErr_noRetry (env : Nat → AttemptOutcome) (idx n s : Nat)
    (h : env idx = .httpErr s) (hm : retryableMsg (httpErrMsg s) = false) :
    makeRequestRun env idx n = (.failure (httpErrMsg s) false, 1) := by
  rw [makeRequestRun, h]
  cases n <;> simp [hm]

/-- Against a server answering `status` on every attempt, a retryable message
makes the dispatcher use its whole budget: `n` retries, `n + 1` attempts. -/
lemma makeRequestRun_const_httpErr (s : Nat)
    (hm : retryableMsg (httpErrMsg s) = true) :
    ∀ (n idx : Nat), makeRequestRun (fun _ => .httpErr s) idx n =
      (.failure (httpErrMsg s) false, n + 1) := by
  intro n
  induction n with
  | zero => intro idx; rw [makeRequestRun]
  | succ r ih =>
    intro idx
    rw [makeRequestRun_httpErr_retry _ idx r s rfl hm, ih (idx + 1)]

/-- Against a server unreachable with the same transport error on every
attempt, a retryable message makes the dispatcher use its whole budget. -/
lemma makeRequestRun_const_netErr (m : String) (hm : retryableMsg m = true) :
    ∀ (n idx : Nat), makeRequestRun (fun _ => .netErr m) idx n =
      (.failure m false, n + 1) := by
  intro n
  induction n with
  | zero => intro idx; rw [makeRequestRun]
  | succ r ih =>
    intro idx
    rw [makeRequestRun]
    simp only [hm, if_true]
    rw [ih (idx + 1)]

set_option maxRecDepth 4000 in
/-- Every 4xx status code has the digit 4 in its decimal representation, so
the thrown message fails the retry predicate. -/
lemma retryableMsg_httpErrMsg_4xx : ∀ s : Nat, s < 500 → 400 ≤ s →
    retryableMsg (httpErrMsg s) = false := by
  decide

/-- The dispatcher always performs at least one attempt. -/
lemma one_le_attempts (env : Nat → AttemptOutcome) (idx r : Nat) :
    1 ≤ (makeRequestRun env idx r).2 := by
  rw [makeRequestRun]
  cases h : env idx <;> cases r <;> simp <;> split <;> simp

/-- C1, claim as stated, fails: 504 is a ServerError (5xx), yet with
`maxRetries = 3` the dispatcher performs 1 attempt, not 3 + 1, because the
thrown message `HTTP error! status: 504` contains the character '4' and the
retry predicate only inspects the message for that character. -/
theorem serverError_504_not_retried :
    500 ≤ 504 ∧ 504 ≤ 599 ∧
    makeRequestRun (fun _ => .httpErr 504) 0 3 =
      (.failure (httpErrMsg 504) false, 1) ∧
    (1 : Nat) ≠ 3 + 1 := by
  decide

/-- C1 (amended): for every `maxRetries = n`, a persistent ServerError whose
status code's decimal digits do not include 4 (so its thrown message passes
the retry predicate, e.g. 500, 502, 503) results in exactly `n + 1` total
attempts and a terminal Failure. -/
theorem serverError_exhausts_budget (s n : Nat) (h5 : 500 ≤ s) (h6 : s ≤ 599)
    (hm : retryableMsg (httpErrMsg s) = true) :
    makeRequestRun (fun _ => .httpErr s) 0 n =
      (.failure (httpErrMsg s) false, n + 1) :=
  makeRequestRun_const_httpErr s hm n 0

/-- Witness for C1 (amended) at status 500 and `maxRetries = 3`. -/
theorem serverError_exhausts_budget_witness :
    500 ≤ 500 ∧ 500 ≤ 599 ∧ retryableMsg (httpErrMsg 500) = true ∧
    makeRequestRun (fun _ => .httpErr 500) 0 3 =
      (.failure (httpErrMsg 500) false, 3 + 1) :=
  ⟨by decide, by decide, by decide,
    serverError_exhausts_budget 500 3 (by decide) (by decide) (by decide)⟩

/-- C2: a response with a ClientError status (4xx) settles the call at once
as a terminal Failure — one attempt, no retry — whatever the remaining
retry budget `n` is. -/
theorem clientError_never_retried (env : Nat → AttemptOutcome)
    (idx n s : Nat) (h : env idx = .httpErr s) (h4 : 400 ≤ s) (h5 : s ≤ 499) :
    makeRequestRun env idx n = (.failure (httpErrMsg s) false, 1) :=
  makeRequestRun_httpErr_noRetry env idx n s h
    (retryableMsg_httpErrMsg_4xx s (by omega) h4)

/-- Witness for C2 at status 404 with 5 retries remaining. -/
theorem clientError_never_retried_witness :
    (fun _ => AttemptOutcome.httpErr 404) 0 = AttemptOutcome.httpErr 404 ∧
    400 ≤ 404 ∧ 404 ≤ 499 ∧
    makeRequestRun (fun _ => .httpErr 404) 0 5 =
      (.failure (httpErrMsg 404) false, 1) :=
  ⟨rfl, by decide, by decide,
    clientError_never_retried _ 0 5 404 rfl (by decide) (by decide)⟩

/-- C3: when an attempt fails with an `AbortError` (the timeout timer fired
`controller.abort()`, or the request was explicitly cancelled), the
dispatcher returns the cancelled Failure immediately: one attempt, no retry,
whatever the remaining budget. -/
theorem abort_never_retried (env : Nat → AttemptOutcome) (idx n : Nat)
    (h : env idx = .abortErr) :
    makeRequestRun env idx n = (.failure "Request cancelled" true, 1) := by
  rw [makeRequestRun, h]

/-- Witness for C3 with 3 retries remaining. -/
theorem abort_never_retried_witness :
    (fun _ => AttemptOutcome.abortErr) 0 = AttemptOutcome.abortErr ∧
    makeRequestRun (fun _ => .abortErr) 0 3 =
      (.failure "Request cancelled" true, 1) :=
  ⟨rfl, abort_never_retried _ 0 3 rfl⟩

/-- C9: `makeRequest` never rejects — it performs at least one attempt and
its returned value is exactly the result object `settleResult` assigns to the
outcome of the attempt it settles on: `{success: true, data}` for a 2xx
response, `{success: false, error: "Request cancelled"}` for an abort, and
`{success: false, error: message}` for every other failure (user callbacks
assumed non-throwing). -/
theorem makeRequest_always_returns (env : Nat → AttemptOutcome)
    (idx r : Nat) :
    1 ≤ (makeRequestRun env idx r).2 ∧
    (makeRequestRun env idx r).1 =
      settleResult (env (idx + ((makeRequestRun env idx r).2 - 1))) := by
  refine ⟨one_le_attempts env idx r, ?_⟩
  induction r generalizing idx with
  | zero =>
    rw [makeRequestRun]
    cases h : env idx <;> simp [settleResult, h]
  | succ n ih =>
    rw [makeRequestRun]
    cases h : env idx
    case httpOk d => simp [settleResult, h]
    case abortErr => simp [settleResult, h]
    case httpErr s =>
      by_cases hm : retryableMsg (httpErrMsg s) = true
      · have h1 := one_le_attempts env (idx + 1) n
        have h2 := ih (idx + 1)
        simp only [hm, if_true]
        rw [h2]
        congr 2
        omega
      · simp only [Bool.not_eq_true] at hm
        simp [hm, settleResult, h]
    case netErr m =>
      by_cases hm : retryableMsg m = true
      · have h1 := one_le_attempts env (idx + 1) n
        have h2 := ih (idx + 1)
        simp only [hm, if_true]
        rw [h2]
        congr 2
        omega
      · simp only [Bool.not_eq_true] at hm
        simp [hm, settleResult, h]

/-- C10: the effective configuration is the defaults overridden field by
field by the caller's options — an absent field takes the default (timeout
30000, retries 3, retryDelay 1000, showLoading true, showErrors true), a
present field wins; with no options a persistently failing (retryable)
request makes 3 + 1 = 4 attempts; and cancel-existing-to-same-url is enabled
unless `cancelPending` is the literal `false`. -/
theorem effective_config :
    mergeConfig {} = defaultConfig ∧
    defaultConfig =
      { timeout := 30000, retries := 3, retryDelay := 1000,
        showLoading := true, showErrors := true } ∧
    (∀ (o : RequestOptions) (t : Nat), o.timeout = some t →
      (mergeConfig o).timeout = t) ∧
    (∀ (o : RequestOptions) (n : Nat), o.retries = some n →
      (mergeConfig o).retries = n) ∧
    (∀ (o : RequestOptions) (d : Nat), o.retryDelay = some d →
      (mergeConfig o).retryDelay = d) ∧
    (∀ (o : RequestOptions) (b : Bool), o.showLoading = some b →
      (mergeConfig o).showLoading = b) ∧
    (∀ (o : RequestOptions) (b : Bool), o.showErrors = some b →
      (mergeConfig o).showErrors = b) ∧
    (∀ m : String, retryableMsg m = true →
      (makeRequestRun (fun _ => .netErr m) 0 (mergeConfig {}).retries).2 = 4) ∧
    cancelPendingEnabled {} = true ∧
    (∀ b : Bool, cancelPendingEnabled { cancelPending := some b } = b) := by
  refine ⟨rfl, rfl, ?_, ?_, ?_, ?_, ?_, ?_, rfl, ?_⟩
  · intro o t h; simp [mergeConfig, h]
  · intro o n h; simp [mergeConfig, h]
  · intro o d h; simp [mergeConfig, h]
  · intro o b h; simp [mergeConfig, h]
  · intro o b h; simp [mergeConfig, h]
  · intro m hm
    rw [makeRequestRun_const_netErr m hm (mergeConfig {}).retries 0]
    rfl
  · intro b; cases b <;> rfl

/-- Witness for C10: an explicit timeout overrides the default, and a
persistent retryable transport failure under the default configuration makes
exactly 4 attempts. -/
theorem effective_config_witness :
    ({ timeout := some 5000 : RequestOptions }.timeout = some 5000) ∧
    (mergeConfig { timeout := some 5000 }).timeout = 5000 ∧
    retryableMsg "Failed to fetch" = true ∧
    (makeRequestRun (fun _ => .netErr "Failed to fetch") 0
      (mergeConfig {}).retries).2 = 4 :=
  ⟨rfl, effective_config.2.2.1 { timeout := some 5000 } 5000 rfl,
    by decide,
    effective_config.2.2.2.2.2.2.2.1 "Failed to fetch" (by decide)⟩

/-- Cancelling a url removes every entry recorded under it. -/
lemma urlCount_cancelPendingRequest_self (u : String) (reg : Registry) :
    urlCount (cancelPendingRequest u reg) u = 0 := by
  simp only [urlCount, cancelPendingRequest, List.countP_eq_zero]
  intro e he
  have h2 := (List.mem_filter.mp he).2
  simp only [Bool.not_eq_true', Bool.or_eq_false_iff] at h2
  simp [h2.1]

/-- Removing entries never increases the count for any url. -/
lemma urlCount_filter_le (p : PendingEntry → Bool) (reg : Registry)
    (u : String) : urlCount (reg.filter p) u ≤ urlCount reg u := by
  simp only [urlCount, List.countP_filter]
  exact List.countP_mono_left (fun e _ h => by
    exact (Bool.and_eq_true _ _ |>.mp h).1)

/-- One dispatch-start or settlement preserves the at-most-one-entry-per-url
invariant, provided the start respects the cancel-existing policy. -/
lemma applyRegOp_urlCount_le (reg : Registry) (op : RegOp)
    (hop : opCancelEnabled op = true) (hinv : ∀ u, urlCount reg u ≤ 1) :
    ∀ u, urlCount (applyRegOp reg op) u ≤ 1 := by
  intro u
  cases op with
  | start id url cp =>
    have hcp : cp = true := hop
    subst hcp
    simp only [applyRegOp, if_true]
    rw [show urlCount (cancelPendingRequest url reg ++ [⟨id, url⟩]) u =
      urlCount (cancelPendingRequest url reg) u + urlCount [⟨id, url⟩] u from
      List.countP_append _ _ _]
    by_cases h : url = u
    · subst h
      rw [urlCount_cancelPendingRequest_self]
      simp [urlCount, List.countP_singleton]
    · have h1 : urlCount (cancelPendingRequest url reg) u ≤ 1 :=
        le_trans (urlCount_filter_le _ reg u) (hinv u)
      have h2 : urlCount [⟨id, url⟩] u = 0 := by
        simp [urlCount, List.countP_singleton, h]
      omega
  | settle id => exact le_trans (urlCount_filter_le _ reg u) (hinv u)

/-- The invariant is preserved along any sequence of operations whose starts
all respect the cancel-existing policy. -/
lemma runRegOps_urlCount_le (ops : List RegOp) :
    ∀ (reg : Registry), (∀ op ∈ ops, opCancelEnabled op = true) →
      (∀ u, urlCount reg u ≤ 1) → ∀ u, urlCount (runRegOps reg ops) u ≤ 1 := by
  induction ops with
  | nil => intro reg _ hinv u; exact hinv u
  | cons op ops ih =>
    intro reg hall hinv u
    have h1 := applyRegOp_urlCount_le reg op (hall op (by simp)) hinv
    exact ih (applyRegOp reg op) (fun o ho => hall o (by simp [ho])) h1 u

/-- C4: with cancel-existing-to-same-url enabled on every dispatch, the
pending-request registry never holds two entries for the same url (starting
from the empty registry of the constructor); and issuing two requests to the
same url — the second start cancelling and removing the first entry before
registering its own — leaves exactly the second call's entry. -/
theorem pending_registry_unique_url :
    (∀ (ops : List RegOp), (∀ op ∈ ops, opCancelEnabled op = true) →
      ∀ u, urlCount (runRegOps [] ops) u ≤ 1) ∧
    runRegOps []
      [RegOp.start "req_1" "/projects/search/" true,
       RegOp.start "req_2" "/projects/search/" true] =
      [⟨"req_2", "/projects/search/"⟩] := by
  refine ⟨?_, by decide⟩
  intro ops hall u
  exact runRegOps_urlCount_le ops [] hall (fun v => by simp [urlCount]) u

/-- Witness for C4: a concrete operation sequence — two dispatches to one
url, the first one settling — respects the policy and keeps at most one
entry for that url. -/
theorem pending_registry_unique_url_witness :
    (∀ op ∈ [RegOp.start "req_a" "/projects/" true,
             RegOp.start "req_b" "/projects/" true,
             RegOp.settle "req_a"], opCancelEnabled op = true) ∧
    urlCount (runRegOps []
      [RegOp.start "req_a" "/projects/" true,
       RegOp.start "req_b" "/projects/" true,
       RegOp.settle "req_a"]) "/projects/" ≤ 1 :=
  ⟨by decide, pending_registry_unique_url.1 _ (by decide) "/projects/"⟩

/-- C5: on every settlement path of one `makeRequest` invocation — success,
HTTP error, transport error, retries-exhausting failure, timeout abort,
cancellation by a peer dispatch, or a parse error after a successful fetch —
the number of `hideLoading` calls on the call's loading element equals the
number of `showLoading` calls, and when the indicator was activated
(`config.showLoading` true and a loading element resolved) it is deactivated
exactly once. -/
theorem loading_indicator_once (sl hasEl : Bool) (p : AttemptPath) :
    ((attemptTrace sl hasEl p).count DomAction.hideLoad =
      (attemptTrace sl hasEl p).count DomAction.showLoad) ∧
    (attemptTrace true true p).count DomAction.hideLoad = 1 := by
  cases sl <;> cases hasEl <;> cases p <;> exact ⟨by decide, by decide⟩

/-- C6, claim as stated, fails: for a form whose submission response carries
`{redirect: "/thanks/"}` and default options, the effect trace both
navigates to `/thanks/` and resets the form — `form.reset()` (line 260) runs
on the redirect path too, because the reset is only guarded by
`options.resetForm !== false`. -/
theorem submit_redirect_also_resets :
    BrowserEffect.navigate "/thanks/" ∈
      (submitForm ⟨false, true, some "/donate/"⟩ {} "/page/"
        (.success { redirect := some "/thanks/" })).2 ∧
    BrowserEffect.formReset ∈
      (submitForm ⟨false, true, some "/donate/"⟩ {} "/page/"
        (.success { redirect := some "/thanks/" })).2 := by
  decide

/-- C6 (amended): a successful form submission whose payload carries
`redirect: "/thanks/"` navigates the browser to exactly `/thanks/` (and to
no other target), and the form is reset exactly when the `resetForm` option
is not the literal `false`. -/
theorem submit_redirect_navigates (form : FormModel) (opts : SubmitOptions)
    (href : String) (payload : Payload)
    (hv : (form.hasDataValidate && !form.checkValidity) = false)
    (hr : payload.redirect = some "/thanks/") :
    BrowserEffect.navigate "/thanks/" ∈
      (submitForm form opts href (.success payload)).2 ∧
    (∀ h : String, BrowserEffect.navigate h ∈
      (submitForm form opts href (.success payload)).2 → h = "/thanks/") ∧
    (BrowserEffect.formReset ∈ (submitForm form opts href (.success payload)).2
      ↔ opts.resetForm ≠ some false) := by
  by_cases hb : opts.resetForm = some false <;>
    simp [submitForm, hv, hr, hb]

/-- Witness for C6 (amended) on a concrete form, options and payload. -/
theorem submit_redirect_navigates_witness :
    ((⟨false, true, some "/donate/"⟩ : FormModel).hasDataValidate &&
      !(⟨false, true, some "/donate/"⟩ : FormModel).checkValidity) = false ∧
    ({ redirect := some "/thanks/" } : Payload).redirect = some "/thanks/" ∧
    BrowserEffect.navigate "/thanks/" ∈
      (submitForm ⟨false, true, some "/donate/"⟩ {} "/page/"
        (.success { redirect := some "/thanks/" })).2 ∧
    (BrowserEffect.formReset ∈
      (submitForm ⟨false, true, some "/donate/"⟩ {} "/page/"
        (.success { redirect := some "/thanks/" })).2
      ↔ ({} : SubmitOptions).resetForm ≠ some false) :=
  ⟨rfl, rfl,
    (submit_redirect_navigates ⟨false, true, some "/donate/"⟩ {} "/page/"
      { redirect := some "/thanks/" } rfl rfl).1,
    (submit_redirect_navigates ⟨false, true, some "/donate/"⟩ {} "/page/"
      { redirect := some "/thanks/" } rfl rfl).2.2⟩

/-- C7, claim as stated, fails: the failure the code returns when client-side
validation rejects the form carries the message `Form validation failed`
(line 244), which is not the string `validation failed`. -/
theorem validation_message_not_literal :
    submitForm ⟨true, false, some "/donate/"⟩ {} "/page/" (.failure "x") =
      (.failure "Form validation failed", []) ∧
    "Form validation failed" ≠ "validation failed" := by
  decide

/-- C7 (amended): for a form with `data-validate` set whose
`checkValidity()` is false, `submitForm` returns
`{success: false, error: "Form validation failed"}` and its effect trace is
empty — in particular no network call is issued. -/
theorem validation_blocks_network (form : FormModel) (opts : SubmitOptions)
    (href : String) (net : SubmitNetResult)
    (hv : form.hasDataValidate = true) (hc : form.checkValidity = false) :
    submitForm form opts href net =
      (.failure "Form validation failed", []) := by
  simp [submitForm, hv, hc]

/-- Witness for C7 (amended) on a concrete invalid form. -/
theorem validation_blocks_network_witness :
    (⟨true, false, some "/donate/"⟩ : FormModel).hasDataValidate = true ∧
    (⟨true, false, some "/donate/"⟩ : FormModel).checkValidity = false ∧
    submitForm ⟨true, false, some "/donate/"⟩ {} "/page/" (.failure "x") =
      (.failure "Form validation failed", []) :=
  ⟨rfl, rfl,
    validation_blocks_network ⟨true, false, some "/donate/"⟩ {} "/page/"
      (.failure "x") rfl rfl⟩

/-- C8: three keystrokes `"c"`, `"ca"`, `"cat"` each arriving within the
300 ms quiescence window of its predecessor cancel the two pending debounce
timers, and the search handlers issue exactly one network call, for the
final query `cat`. -/
theorem rapid_search_single_call (t1 t2 t3 : Nat) (base : String)
    (h12 : t2 < t1 + 300) (h23 : t3 < t2 + 300) :
    searchNetworkCalls 300 base [(t1, "c"), (t2, "ca"), (t3, "cat")] =
      [searchUrl base "cat"] := by
  simp [searchNetworkCalls, debounceFired, h12, h23, isBlank]

/-- Witness for C8 at input times 0, 120 and 250 ms. -/
theorem rapid_search_single_call_witness :
    (120 < 0 + 300) ∧ (250 < 120 + 300) ∧
    searchNetworkCalls 300 "/projects/search/"
      [(0, "c"), (120, "ca"), (250, "cat")] =
      [searchUrl "/projects/search/" "cat"] :=
  ⟨by decide, by decide,
    rapid_search_single_call 0 120 250 "/projects/search/"
      (by decide) (by decide)⟩

end Crowdfunding
